import Mathlib

/- Shallow embedding of the solar-generation estimator in yilmazaygin/tubitak_gunes.

   Sources:
     src/classes/moment_data.py : class MomentData (solar position and irradiance chain)
     src/classes/generated_kw.py: class GeneratedKw (daily_kw / monthly_kw / yearly_kw)
     src/data.py                : duplicate of MomentData, plus class Calculation
                                  (daily_kw / calc_month / calc_year), whose month and
                                  year drivers mutate the shared MomentData object's
                                  day attribute in place.

   Python floats are modelled as real numbers.  Constructing a MomentData either
   yields the full attribute record or raises an exception; this is modelled with
   Except.  The exceptions the constructor can raise are:
     * math.asin raises ValueError when its argument is outside [-1, 1];
     * x / 0.0 and 0.0 ** (negative exponent) raise ZeroDivisionError;
     * a negative float raised to a non-integral power yields a complex number,
       which makes the later comparison max(0, s_incident * fraction) raise
       TypeError; the computation therefore still ends in an exception, modelled
       here as an error at the point where the complex value first appears;
     * days_in_month[month] raises KeyError for months outside 1..12.  -/

set_option maxRecDepth 10000

namespace Gunes

/-- Exceptions the Python code can raise while computing. -/
inductive PyErr where
  /-- ValueError from math.asin on an argument outside [-1, 1]. -/
  | valueError : PyErr
  /-- ZeroDivisionError from x / 0.0 or 0.0 ** (negative exponent). -/
  | zeroDivision : PyErr
  /-- TypeError from comparing the complex number produced by a negative base
      raised to a non-integral power. -/
  | typeError : PyErr
  /-- KeyError from the days_in_month dictionary lookup. -/
  | keyError : PyErr
deriving DecidableEq

/-- The days_in_month dictionary of generated_kw.py and data.py: a lookup that
raises KeyError (here: none) outside 1..12. -/
def days_in_month (month : ℕ) : Option ℕ :=
  match month with
  | 1 => some 31
  | 2 => some 28
  | 3 => some 31
  | 4 => some 30
  | 5 => some 31
  | 6 => some 30
  | 7 => some 31
  | 8 => some 31
  | 9 => some 30
  | 10 => some 31
  | 11 => some 30
  | 12 => some 31
  | _ => none

/-- Number of days of a valid month (only evaluated at months 1..12, where the
dictionary lookup succeeds). -/
def dim (m : ℕ) : ℕ := (days_in_month m).getD 0

/-- base_day_of_year = sum(days_in_month[m] for m in range(1, month)). -/
def monthBase (month : ℕ) : ℕ := ((List.range' 1 (month - 1)).map dim).sum

/-- The caller-supplied fields of a MomentData object: the eight constructor
arguments.  data.py's Calculation reads exactly these fields from the object it
is handed (and calc_month / calc_year overwrite its day field in place). -/
structure MomentIn where
  day : ℤ
  gmt : ℤ
  hour : ℝ
  longitude : ℝ
  latitude : ℝ
  module_azimuth : ℝ
  module_tilt : ℝ
  constant_eff : ℝ

/-- All attributes a successfully constructed MomentData carries. -/
structure MomentState where
  day : ℤ
  gmt : ℤ
  hour : ℝ
  longitude : ℝ
  latitude : ℝ
  module_azimuth : ℝ
  module_tilt : ℝ
  constant_eff : ℝ
  data_B : ℝ
  eot : ℝ
  lstm : ℝ
  tc : ℝ
  lst : ℝ
  hra : ℝ
  dec_ang : ℝ
  ev_ang : ℝ
  zenith_ang : ℝ
  az_ang : ℝ
  azi_ang_mor : ℝ
  az_ang_past12 : ℝ
  air_mass : ℝ
  s_incident : ℝ
  fraction : ℝ
  s_module : ℝ
  generated_kw : ℝ

/-- The dictionary returned by GeneratedKw.daily_kw. -/
@[ext] structure DailySummary where
  day : ℤ
  totalKw : ℝ
  maxKwInHour : ℝ
  hourOfMax : ℕ
  hoursWithGeneration : List ℕ
  fractionHoursActive : ℝ

/-- The dictionary returned by GeneratedKw.monthly_kw. -/
@[ext] structure MonthlySummary where
  month : ℕ
  totalDays : ℕ
  totalKw : ℝ
  bestDayDay : ℕ
  bestDayKw : ℝ
  bestHourDay : ℕ
  bestHourHour : ℕ
  bestHourKw : ℝ
  averageDailyKw : ℝ

/-- The dictionary returned by GeneratedKw.yearly_kw. -/
@[ext] structure YearlySummary where
  totalKw : ℝ
  bestMonthMonth : ℕ
  bestMonthKw : ℝ
  bestDayMonth : ℕ
  bestDayDay : ℕ
  bestDayKw : ℝ
  bestHourMonth : ℕ
  bestHourDay : ℕ
  bestHourHour : ℕ
  bestHourKw : ℝ
  averageDailyKw : ℝ
  averageMonthlyKw : ℝ

noncomputable section

/-- math.radians. -/
def radians (x : ℝ) : ℝ := x * Real.pi / 180

/-- math.degrees. -/
def degrees (x : ℝ) : ℝ := x * 180 / Real.pi

/-- self.data_B = (360 / 365) * (self.day - 81). -/
def data_B (m : MomentIn) : ℝ := (360 / 365) * ((m.day : ℝ) - 81)

/-- self.eot = 9.87 * sin(radians(2 * B)) - 7.53 * cos(radians(B)) - 1.5 * sin(radians(B)). -/
def eot (m : MomentIn) : ℝ :=
  9.87 * Real.sin (radians (2 * data_B m)) - 7.53 * Real.cos (radians (data_B m)) -
    1.5 * Real.sin (radians (data_B m))

/-- self.lstm = 15 * self.gmt. -/
def lstm (m : MomentIn) : ℝ := 15 * (m.gmt : ℝ)

/-- self.tc = 4 * (self.longitude - self.lstm) + self.eot. -/
def tc (m : MomentIn) : ℝ := 4 * (m.longitude - lstm m) + eot m

/-- self.lst = self.hour + self.tc / 60. -/
def lst (m : MomentIn) : ℝ := m.hour + tc m / 60

/-- self.hra = 15 * (self.lst - 12). -/
def hra (m : MomentIn) : ℝ := 15 * (lst m - 12)

/-- self.dec_ang = 23.45 * sin(radians(B)). -/
def dec_ang (m : MomentIn) : ℝ := 23.45 * Real.sin (radians (data_B m))

/-- Argument handed to math.asin in the elevation-angle line. -/
def asinArg (m : MomentIn) : ℝ :=
  Real.sin (radians (dec_ang m)) * Real.sin (radians m.latitude) +
    Real.cos (radians (dec_ang m)) * Real.cos (radians m.latitude) *
      Real.cos (radians (hra m))

/-- self.ev_ang = degrees(asin(asinArg)). -/
def ev_ang (m : MomentIn) : ℝ := degrees (Real.arcsin (asinArg m))

/-- self.zenith_ang = 90 - self.ev_ang. -/
def zenith_ang (m : MomentIn) : ℝ := 90 - ev_ang m

/-- numerator of the azimuth cosine. -/
def az_numerator (m : MomentIn) : ℝ :=
  Real.sin (radians (dec_ang m)) * Real.cos (radians m.latitude) -
    Real.cos (radians (dec_ang m)) * Real.sin (radians m.latitude) *
      Real.cos (radians (hra m))

/-- denominator = cos(radians(self.ev_ang)). -/
def az_denominator (m : MomentIn) : ℝ := Real.cos (radians (ev_ang m))

/-- cos_az_arg = max(min(numerator / denominator, 1), -1). -/
def cos_az_arg (m : MomentIn) : ℝ := max (min (az_numerator m / az_denominator m) 1) (-1)

/-- azimuth_base = degrees(acos(cos_az_arg)). -/
def azimuth_base (m : MomentIn) : ℝ := degrees (Real.arccos (cos_az_arg m))

/-- self.az_ang: 360 - azimuth_base if self.hra > 0 else azimuth_base. -/
def az_ang (m : MomentIn) : ℝ :=
  if hra m > 0 then 360 - azimuth_base m else azimuth_base m

/-- Base of the exponentiation in the air-mass line: 96.07995 - self.zenith_ang. -/
def air_mass_base (m : MomentIn) : ℝ := 96.07995 - zenith_ang m

/-- Denominator of the air-mass formula,
cos(radians(zenith)) + 0.50572 * (96.07995 - zenith) ** -1.6364. -/
def air_mass_denom (m : MomentIn) : ℝ :=
  Real.cos (radians (zenith_ang m)) + 0.50572 * air_mass_base m ^ (-1.6364 : ℝ)

/-- self.air_mass = 1 / air_mass_denom. -/
def air_mass (m : MomentIn) : ℝ := 1 / air_mass_denom m

/-- self.s_incident = 1.353 * (0.7 ** (air_mass ** 0.678)). -/
def s_incident (m : MomentIn) : ℝ := 1.353 * (0.7 : ℝ) ^ (air_mass m ^ (0.678 : ℝ))

/-- self.fraction = cos(radians(ev_ang)) * sin(radians(module_tilt) *
cos(radians(az_ang - module_azimuth))) + sin(radians(ev_ang)) * cos(radians(module_tilt)).
Note that radians(module_tilt) is multiplied by the cosine inside the outer sine. -/
def fraction (m : MomentIn) : ℝ :=
  Real.cos (radians (ev_ang m)) *
      Real.sin (radians m.module_tilt * Real.cos (radians (az_ang m - m.module_azimuth))) +
    Real.sin (radians (ev_ang m)) * Real.cos (radians m.module_tilt)

/-- self.s_module = max(0, self.s_incident * self.fraction). -/
def s_module (m : MomentIn) : ℝ := max 0 (s_incident m * fraction m)

/-- self.generated_kw = self.s_module * self.constant_eff. -/
def generated_kw (m : MomentIn) : ℝ := s_module m * m.constant_eff

/-- First exception raised while evaluating the MomentData constructor body, if
any, in the order the Python statements execute:
math.asin's domain check, the x / cos(ev_ang) division, the
(96.07995 - zenith) ** -1.6364 power (zero base: ZeroDivisionError; negative
base: a complex value whose comparison in max() raises TypeError), the
1 / air_mass_denom division, and the air_mass ** 0.678 power (negative base:
complex value, TypeError at max()). -/
def momentErr (m : MomentIn) : Option PyErr :=
  if asinArg m < -1 ∨ 1 < asinArg m then some PyErr.valueError
  else if az_denominator m = 0 then some PyErr.zeroDivision
  else if air_mass_base m = 0 then some PyErr.zeroDivision
  else if air_mass_base m < 0 then some PyErr.typeError
  else if air_mass_denom m = 0 then some PyErr.zeroDivision
  else if air_mass m < 0 then some PyErr.typeError
  else none

/-- The attribute record of a successfully constructed MomentData. -/
def momentState (m : MomentIn) : MomentState :=
  { day := m.day, gmt := m.gmt, hour := m.hour, longitude := m.longitude,
    latitude := m.latitude, module_azimuth := m.module_azimuth,
    module_tilt := m.module_tilt, constant_eff := m.constant_eff,
    data_B := data_B m, eot := eot m, lstm := lstm m, tc := tc m, lst := lst m,
    hra := hra m, dec_ang := dec_ang m, ev_ang := ev_ang m,
    zenith_ang := zenith_ang m, az_ang := az_ang m,
    azi_ang_mor := azimuth_base m, az_ang_past12 := 360 - azimuth_base m,
    air_mass := air_mass m, s_incident := s_incident m, fraction := fraction m,
    s_module := s_module m, generated_kw := generated_kw m }

/-- MomentData(day, gmt, hour, ...): the constructor either raises or returns
the full attribute record. -/
def momentData (m : MomentIn) : Except PyErr MomentState :=
  match momentErr m with
  | some e => Except.error e
  | none => Except.ok (momentState m)

/-- The MomentData constructor call of GeneratedKw.daily_kw for hour i. -/
def dailyInput (day : ℤ) (gmt : ℤ) (i : ℕ) (lo la ma mt ce : ℝ) : MomentIn :=
  { day := day, gmt := gmt, hour := (i : ℝ), longitude := lo, latitude := la,
    module_azimuth := ma, module_tilt := mt, constant_eff := ce }

/-- Effective contribution of hour i inside GeneratedKw.daily_kw: the
generated_kw of the moment if the constructor succeeds, 0 if it raises. -/
def effKw (day : ℤ) (gmt : ℤ) (lo la ma mt ce : ℝ) (i : ℕ) : ℝ :=
  match momentData (dailyInput day gmt i lo la ma mt ce) with
  | Except.error _ => 0
  | Except.ok st => st.generated_kw

/-- Body of the try-block of GeneratedKw.daily_kw for a successful hour i with
value kw = data.generated_kw: the strict-greater max update, the
hours-with-generation append, and the total accumulation. -/
def dailyStepOk (acc : DailySummary) (i : ℕ) (kw : ℝ) : DailySummary :=
  let acc1 := if kw > acc.maxKwInHour then
    { acc with maxKwInHour := kw, hourOfMax := i } else acc
  let acc2 := if kw > 0 then
    { acc1 with hoursWithGeneration := acc1.hoursWithGeneration ++ [i] } else acc1
  { acc2 with totalKw := acc2.totalKw + kw }

/-- One iteration of the hour loop of GeneratedKw.daily_kw: the except-clause
turns any exception into continue, leaving the accumulator unchanged. -/
def dailyStep (day : ℤ) (gmt : ℤ) (lo la ma mt ce : ℝ) (acc : DailySummary)
    (i : ℕ) : DailySummary :=
  match momentData (dailyInput day gmt i lo la ma mt ce) with
  | Except.error _ => acc
  | Except.ok st => dailyStepOk acc i st.generated_kw

/-- GeneratedKw.daily_kw. -/
def daily_kw (day : ℤ) (gmt : ℤ) (lo la ma mt ce : ℝ) : DailySummary :=
  let init : DailySummary :=
    { day := day, totalKw := 0, maxKwInHour := 0, hourOfMax := 0,
      hoursWithGeneration := [], fractionHoursActive := 0 }
  let r := (List.range 24).foldl (dailyStep day gmt lo la ma mt ce) init
  { r with fractionHoursActive := (r.hoursWithGeneration.length : ℝ) / 24 }

/-- One iteration of the day loop of GeneratedKw.monthly_kw, given the daily
summary of calendar day d of the month. -/
def monthlyStep (acc : MonthlySummary) (d : ℕ) (ds : DailySummary) : MonthlySummary :=
  let acc1 := { acc with totalKw := acc.totalKw + ds.totalKw }
  let acc2 := if ds.totalKw > acc1.bestDayKw then
    { acc1 with bestDayKw := ds.totalKw, bestDayDay := d } else acc1
  if ds.maxKwInHour > acc2.bestHourKw then
    { acc2 with
      bestHourKw := ds.maxKwInHour, bestHourDay := d,
      bestHourHour := ds.hourOfMax }
  else acc2

/-- The month_data dictionary GeneratedKw.monthly_kw returns for a valid month
(junk initial record for an invalid one, where the real function raises first). -/
def monthlySummaryOf (gmt : ℤ) (lo la ma mt ce : ℝ) (month : ℕ) : MonthlySummary :=
  match days_in_month month with
  | none =>
    { month := month, totalDays := 0, totalKw := 0, bestDayDay := 0, bestDayKw := 0,
      bestHourDay := 0, bestHourHour := 0, bestHourKw := 0, averageDailyKw := 0 }
  | some n =>
    let init : MonthlySummary :=
      { month := month, totalDays := n, totalKw := 0, bestDayDay := 0, bestDayKw := 0,
        bestHourDay := 0, bestHourHour := 0, bestHourKw := 0, averageDailyKw := 0 }
    let r := (List.range' 1 n).foldl
      (fun acc d =>
        monthlyStep acc d (daily_kw ((monthBase month + d : ℕ) : ℤ) gmt lo la ma mt ce))
      init
    { r with averageDailyKw := r.totalKw / (n : ℝ) }

/-- GeneratedKw.monthly_kw: raises KeyError for a month outside 1..12 (the
days_in_month[month] lookup in the month_data initializer), otherwise returns
the month dictionary. -/
def monthly_kw (gmt : ℤ) (lo la ma mt ce : ℝ) (month : ℕ) : Except PyErr MonthlySummary :=
  match days_in_month month with
  | none => Except.error PyErr.keyError
  | some _ => Except.ok (monthlySummaryOf gmt lo la ma mt ce month)

/-- One iteration of the month loop of GeneratedKw.yearly_kw, given the month
summary. -/
def yearlyStep (acc : YearlySummary) (month : ℕ) (md : MonthlySummary) : YearlySummary :=
  let a1 := { acc with totalKw := acc.totalKw + md.totalKw }
  let a2 := if md.totalKw > a1.bestMonthKw then
    { a1 with bestMonthKw := md.totalKw, bestMonthMonth := month } else a1
  let a3 := if md.bestDayKw > a2.bestDayKw then
    { a2 with
      bestDayKw := md.bestDayKw, bestDayMonth := month,
      bestDayDay := md.bestDayDay } else a2
  if md.bestHourKw > a3.bestHourKw then
    { a3 with
      bestHourKw := md.bestHourKw, bestHourMonth := month,
      bestHourDay := md.bestHourDay, bestHourHour := md.bestHourHour }
  else a3

/-- The initial year_data dictionary of GeneratedKw.yearly_kw. -/
def yearInit : YearlySummary :=
  { totalKw := 0, bestMonthMonth := 0, bestMonthKw := 0, bestDayMonth := 0,
    bestDayDay := 0, bestDayKw := 0, bestHourMonth := 0, bestHourDay := 0,
    bestHourHour := 0, bestHourKw := 0, averageDailyKw := 0, averageMonthlyKw := 0 }

/-- One iteration of the month loop of GeneratedKw.yearly_kw including the
monthly_kw call: an exception raised by monthly_kw would propagate. -/
def yearlyStepE (gmt : ℤ) (lo la ma mt ce : ℝ) (acc : Except PyErr YearlySummary)
    (month : ℕ) : Except PyErr YearlySummary :=
  match acc with
  | Except.error e => Except.error e
  | Except.ok ys =>
    match monthly_kw gmt lo la ma mt ce month with
    | Except.error e => Except.error e
    | Except.ok md => Except.ok (yearlyStep ys month md)

/-- GeneratedKw.yearly_kw. -/
def yearly_kw (gmt : ℤ) (lo la ma mt ce : ℝ) : Except PyErr YearlySummary :=
  match (List.range' 1 12).foldl (yearlyStepE gmt lo la ma mt ce) (Except.ok yearInit) with
  | Except.error e => Except.error e
  | Except.ok r =>
    Except.ok { r with averageDailyKw := r.totalKw / 365, averageMonthlyKw := r.totalKw / 12 }

/-- Pure value of the month fold of yearly_kw before the averages are filled in
(each monthly_kw call with month 1..12 succeeds). -/
def yearlyFold (gmt : ℤ) (lo la ma mt ce : ℝ) : YearlySummary :=
  (List.range' 1 12).foldl
    (fun acc month => yearlyStep acc month (monthlySummaryOf gmt lo la ma mt ce month))
    yearInit

/-- totalKw of GeneratedKw.monthly_kw, 0 if it raises. -/
def monthlyTotalKw (gmt : ℤ) (lo la ma mt ce : ℝ) (month : ℕ) : ℝ :=
  match monthly_kw gmt lo la ma mt ce month with
  | Except.error _ => 0
  | Except.ok ms => ms.totalKw

/-- One iteration of the hour loop of Calculation.daily_kw in data.py: a fresh
MomentData is built from the fields of the argument object with hour := i, and
any exception is swallowed by the except-clause. -/
def calcDailyStep (md : MomentIn) (s : ℝ) (i : ℕ) : ℝ :=
  match momentData { md with hour := (i : ℝ) } with
  | Except.error _ => s
  | Except.ok st => s + st.generated_kw

/-- Calculation.daily_kw of data.py: the plain 24-hour sum. -/
def calcDaily (md : MomentIn) : ℝ :=
  (List.range 24).foldl (calcDailyStep md) 0

/-- One iteration of the day loops of Calculation.calc_month / calc_year:
moment_data.day = day_of_year is an in-place mutation of the shared object,
modelled by threading the updated record. -/
def calcDayStep (g : ℕ → ℤ) (p : ℝ × MomentIn) (d : ℕ) : ℝ × MomentIn :=
  let md2 := { p.2 with day := g d }
  (p.1 + calcDaily md2, md2)

/-- Calculation.calc_month of data.py: raises KeyError for a month outside
1..12 (days_in_month lookup), otherwise returns the total together with the
mutated moment_data object. -/
def calc_month (md : MomentIn) (month : ℕ) : Except PyErr (ℝ × MomentIn) :=
  match days_in_month month with
  | none => Except.error PyErr.keyError
  | some n =>
    Except.ok ((List.range' 1 n).foldl
      (calcDayStep fun d => ((monthBase month + d : ℕ) : ℤ)) (0, md))

/-- Calculation.calc_year of data.py: iterates day = 1..365 directly, mutating
moment_data.day each iteration. -/
def calc_year (md : MomentIn) : ℝ × MomentIn :=
  (List.range' 1 365).foldl (calcDayStep fun d => (d : ℤ)) (0, md)

/-- Total of Calculation.calc_month, 0 if it raises. -/
def calcMonthTotal (md : MomentIn) (month : ℕ) : ℝ :=
  match calc_month md month with
  | Except.error _ => 0
  | Except.ok p => p.1

/-- Module-plane projection fraction exactly as the specification writes it:
cos(elevation) * sin(tilt * cos(azimuth - moduleAzimuth)) + sin(elevation) * cos(tilt),
all angles converted from degrees to radians. -/
def fractionSpec (elevation tilt azimuth moduleAzimuth : ℝ) : ℝ :=
  Real.cos (radians elevation) *
      Real.sin (radians tilt * Real.cos (radians (azimuth - moduleAzimuth))) +
    Real.sin (radians elevation) * Real.cos (radians tilt)

/-- Concrete probe input: day 81, gmt 0, longitude 7.53 / 4, latitude 0.  At
hour 12 its hour angle is exactly 0 and its elevation angle exactly 90 degrees,
so the azimuth denominator cos(radians(ev_ang)) is exactly 0. -/
def probe (hour ma mt ce : ℝ) : MomentIn :=
  { day := 81, gmt := 0, hour := hour, longitude := 1.8825, latitude := 0,
    module_azimuth := ma, module_tilt := mt, constant_eff := ce }

end

/-! Helper lemmas about the embedding. -/

theorem momentData_ok {m : MomentIn} {st : MomentState}
    (h : momentData m = Except.ok st) : st = momentState m := by
  unfold momentData at h
  cases he : momentErr m <;> rw [he] at h
  · cases h
    rfl
  · cases h

theorem momentData_ok_of_none {m : MomentIn} (h : momentErr m = none) :
    momentData m = Except.ok (momentState m) := by
  unfold momentData
  rw [h]

theorem s_module_nonneg (m : MomentIn) : 0 ≤ s_module m := le_max_left 0 _

theorem generated_kw_nonneg (m : MomentIn) (h : 0 ≤ m.constant_eff) :
    0 ≤ generated_kw m := mul_nonneg (s_module_nonneg m) h

theorem effKw_nonneg (day : ℤ) (gmt : ℤ) (lo la ma mt ce : ℝ) (i : ℕ)
    (h : 0 ≤ ce) : 0 ≤ effKw day gmt lo la ma mt ce i := by
  unfold effKw
  cases hm : momentData (dailyInput day gmt i lo la ma mt ce)
  · exact le_refl 0
  · rename_i st
    rw [momentData_ok hm]
    exact generated_kw_nonneg _ h

theorem dailyStepOk_totalKw (acc : DailySummary) (i : ℕ) (kw : ℝ) :
    (dailyStepOk acc i kw).totalKw = acc.totalKw + kw := by
  unfold dailyStepOk
  split <;> split <;> rfl

theorem dailyStepOk_maxKwInHour (acc : DailySummary) (i : ℕ) (kw : ℝ) :
    (dailyStepOk acc i kw).maxKwInHour =
      if kw > acc.maxKwInHour then kw else acc.maxKwInHour := by
  unfold dailyStepOk
  split <;> split <;> rfl

theorem dailyStepOk_hourOfMax (acc : DailySummary) (i : ℕ) (kw : ℝ) :
    (dailyStepOk acc i kw).hourOfMax =
      if kw > acc.maxKwInHour then i else acc.hourOfMax := by
  unfold dailyStepOk
  split <;> split <;> rfl

theorem dailyStepOk_hours (acc : DailySummary) (i : ℕ) (kw : ℝ) :
    (dailyStepOk acc i kw).hoursWithGeneration =
      if kw > 0 then acc.hoursWithGeneration ++ [i] else acc.hoursWithGeneration := by
  unfold dailyStepOk
  split <;> split <;> rfl

theorem dailyStepOk_day (acc : DailySummary) (i : ℕ) (kw : ℝ) :
    (dailyStepOk acc i kw).day = acc.day := by
  unfold dailyStepOk
  split <;> split <;> rfl

theorem dailyStep_totalKw (day : ℤ) (gmt : ℤ) (lo la ma mt ce : ℝ)
    (acc : DailySummary) (i : ℕ) :
    (dailyStep day gmt lo la ma mt ce acc i).totalKw =
      acc.totalKw + effKw day gmt lo la ma mt ce i := by
  unfold dailyStep effKw
  cases hm : momentData (dailyInput day gmt i lo la ma mt ce)
  · exact (add_zero _).symm
  · exact dailyStepOk_totalKw _ _ _

theorem dailyStep_day (day : ℤ) (gmt : ℤ) (lo la ma mt ce : ℝ)
    (acc : DailySummary) (i : ℕ) :
    (dailyStep day gmt lo la ma mt ce acc i).day = acc.day := by
  unfold dailyStep
  cases hm : momentData (dailyInput day gmt i lo la ma mt ce)
  · rfl
  · exact dailyStepOk_day _ _ _

theorem foldl_dailyStep_totalKw (day : ℤ) (gmt : ℤ) (lo la ma mt ce : ℝ) :
    ∀ (l : List ℕ) (acc : DailySummary),
      ((l.foldl (dailyStep day gmt lo la ma mt ce) acc).totalKw) =
        acc.totalKw + ((l.map (effKw day gmt lo la ma mt ce)).sum) := by
  intro l
  induction l with
  | nil => intro acc; simp
  | cons i l ih =>
    intro acc
    simp only [List.foldl_cons, List.map_cons, List.sum_cons]
    rw [ih, dailyStep_totalKw]
    ring

theorem foldl_dailyStep_day (day : ℤ) (gmt : ℤ) (lo la ma mt ce : ℝ) :
    ∀ (l : List ℕ) (acc : DailySummary),
      ((l.foldl (dailyStep day gmt lo la ma mt ce) acc).day) = acc.day := by
  intro l
  induction l with
  | nil => intro acc; rfl
  | cons i l ih =>
    intro acc
    rw [List.foldl_cons, ih, dailyStep_day]

theorem daily_kw_totalKw (day : ℤ) (gmt : ℤ) (lo la ma mt ce : ℝ) :
    (daily_kw day gmt lo la ma mt ce).totalKw =
      ((List.range 24).map (effKw day gmt lo la ma mt ce)).sum := by
  unfold daily_kw
  rw [show ∀ r : DailySummary, ∀ x,
    ({ r with fractionHoursActive := x } : DailySummary).totalKw = r.totalKw
    from fun r x => rfl]
  rw [foldl_dailyStep_totalKw]
  simp

theorem daily_kw_day (day : ℤ) (gmt : ℤ) (lo la ma mt ce : ℝ) :
    (daily_kw day gmt lo la ma mt ce).day = day := by
  unfold daily_kw
  rw [show ∀ r : DailySummary, ∀ x,
    ({ r with fractionHoursActive := x } : DailySummary).day = r.day
    from fun r x => rfl]
  rw [foldl_dailyStep_day]

theorem daily_kw_fraction (day : ℤ) (gmt : ℤ) (lo la ma mt ce : ℝ) :
    (daily_kw day gmt lo la ma mt ce).fractionHoursActive =
      ((daily_kw day gmt lo la ma mt ce).hoursWithGeneration.length : ℝ) / 24 := rfl

theorem monthlyStep_totalKw (acc : MonthlySummary) (d : ℕ) (ds : DailySummary) :
    (monthlyStep acc d ds).totalKw = acc.totalKw + ds.totalKw := by
  unfold monthlyStep
  dsimp only
  split <;> split <;> rfl

theorem monthlyStep_bestDayKw (acc : MonthlySummary) (d : ℕ) (ds : DailySummary) :
    (monthlyStep acc d ds).bestDayKw =
      if ds.totalKw > acc.bestDayKw then ds.totalKw else acc.bestDayKw := by
  unfold monthlyStep
  dsimp only
  split <;> split <;> rfl

theorem monthlyStep_bestDayDay (acc : MonthlySummary) (d : ℕ) (ds : DailySummary) :
    (monthlyStep acc d ds).bestDayDay =
      if ds.totalKw > acc.bestDayKw then d else acc.bestDayDay := by
  unfold monthlyStep
  dsimp only
  split <;> split <;> rfl

theorem monthlyStep_bestHourKw (acc : MonthlySummary) (d : ℕ) (ds : DailySummary) :
    (monthlyStep acc d ds).bestHourKw =
      if ds.maxKwInHour > acc.bestHourKw then ds.maxKwInHour else acc.bestHourKw := by
  unfold monthlyStep
  dsimp only
  split <;> split <;> rfl

theorem monthlyStep_bestHourDay (acc : MonthlySummary) (d : ℕ) (ds : DailySummary) :
    (monthlyStep acc d ds).bestHourDay =
      if ds.maxKwInHour > acc.bestHourKw then d else acc.bestHourDay := by
  unfold monthlyStep
  dsimp only
  split <;> split <;> rfl

theorem monthlyStep_bestHourHour (acc : MonthlySummary) (d : ℕ) (ds : DailySummary) :
    (monthlyStep acc d ds).bestHourHour =
      if ds.maxKwInHour > acc.bestHourKw then ds.hourOfMax else acc.bestHourHour := by
  unfold monthlyStep
  dsimp only
  split <;> split <;> rfl

theorem yearlyStep_totalKw (acc : YearlySummary) (month : ℕ) (md : MonthlySummary) :
    (yearlyStep acc month md).totalKw = acc.totalKw + md.totalKw := by
  unfold yearlyStep
  dsimp only
  split <;> split <;> split <;> rfl

theorem yearlyStep_bestMonthKw (acc : YearlySummary) (month : ℕ) (md : MonthlySummary) :
    (yearlyStep acc month md).bestMonthKw =
      if md.totalKw > acc.bestMonthKw then md.totalKw else acc.bestMonthKw := by
  unfold yearlyStep
  dsimp only
  split <;> split <;> split <;> rfl

theorem yearlyStep_bestMonthMonth (acc : YearlySummary) (month : ℕ) (md : MonthlySummary) :
    (yearlyStep acc month md).bestMonthMonth =
      if md.totalKw > acc.bestMonthKw then month else acc.bestMonthMonth := by
  unfold yearlyStep
  dsimp only
  split <;> split <;> split <;> rfl

theorem yearlyStep_bestDayKw (acc : YearlySummary) (month : ℕ) (md : MonthlySummary) :
    (yearlyStep acc month md).bestDayKw =
      if md.bestDayKw > acc.bestDayKw then md.bestDayKw else acc.bestDayKw := by
  unfold yearlyStep
  dsimp only
  split <;> split <;> split <;> rfl

theorem yearlyStep_bestDayMonth (acc : YearlySummary) (month : ℕ) (md : MonthlySummary) :
    (yearlyStep acc month md).bestDayMonth =
      if md.bestDayKw > acc.bestDayKw then month else acc.bestDayMonth := by
  unfold yearlyStep
  dsimp only
  split <;> split <;> split <;> rfl

theorem yearlyStep_bestDayDay (acc : YearlySummary) (month : ℕ) (md : MonthlySummary) :
    (yearlyStep acc month md).bestDayDay =
      if md.bestDayKw > acc.bestDayKw then md.bestDayDay else acc.bestDayDay := by
  unfold yearlyStep
  dsimp only
  split <;> split <;> split <;> rfl

theorem yearlyStep_bestHourKw (acc : YearlySummary) (month : ℕ) (md : MonthlySummary) :
    (yearlyStep acc month md).bestHourKw =
      if md.bestHourKw > acc.bestHourKw then md.bestHourKw else acc.bestHourKw := by
  unfold yearlyStep
  dsimp only
  split <;> split <;> split <;> rfl

theorem yearlyStep_bestHourMonth (acc : YearlySummary) (month : ℕ) (md : MonthlySummary) :
    (yearlyStep acc month md).bestHourMonth =
      if md.bestHourKw > acc.bestHourKw then month else acc.bestHourMonth := by
  unfold yearlyStep
  dsimp only
  split <;> split <;> split <;> rfl

theorem yearlyStep_bestHourDay (acc : YearlySummary) (month : ℕ) (md : MonthlySummary) :
    (yearlyStep acc month md).bestHourDay =
      if md.bestHourKw > acc.bestHourKw then md.bestHourDay else acc.bestHourDay := by
  unfold yearlyStep
  dsimp only
  split <;> split <;> split <;> rfl

theorem yearlyStep_bestHourHour (acc : YearlySummary) (month : ℕ) (md : MonthlySummary) :
    (yearlyStep acc month md).bestHourHour =
      if md.bestHourKw > acc.bestHourKw then md.bestHourHour else acc.bestHourHour := by
  unfold yearlyStep
  dsimp only
  split <;> split <;> split <;> rfl

theorem days_in_month_pos {month n : ℕ} (h : days_in_month month = some n) :
    1 ≤ n := by
  unfold days_in_month at h
  split at h <;> (try exact Option.noConfusion h) <;> (injection h with h2; omega)

theorem monthly_kw_eq (gmt : ℤ) (lo la ma mt ce : ℝ) {month n : ℕ}
    (h : days_in_month month = some n) :
    monthly_kw gmt lo la ma mt ce month =
      Except.ok (monthlySummaryOf gmt lo la ma mt ce month) := by
  unfold monthly_kw
  rw [h]

theorem monthly_kw_ok_inv {gmt : ℤ} {lo la ma mt ce : ℝ} {month : ℕ}
    {ms : MonthlySummary}
    (h : monthly_kw gmt lo la ma mt ce month = Except.ok ms) :
    ms = monthlySummaryOf gmt lo la ma mt ce month ∧
      ∃ n, days_in_month month = some n := by
  unfold monthly_kw at h
  cases hd : days_in_month month <;> rw [hd] at h
  · cases h
  · cases h
    exact ⟨rfl, _, rfl⟩

theorem foldl_monthly_totalKw (f : ℕ → DailySummary) :
    ∀ (l : List ℕ) (acc : MonthlySummary),
      ((l.foldl (fun a d => monthlyStep a d (f d)) acc).totalKw) =
        acc.totalKw + (l.map fun d => (f d).totalKw).sum := by
  intro l
  induction l with
  | nil => intro acc; simp
  | cons d l ih =>
    intro acc
    simp only [List.foldl_cons, List.map_cons, List.sum_cons]
    rw [ih, monthlyStep_totalKw]
    ring

theorem foldl_monthly_nonneg (f : ℕ → DailySummary)
    (hf : ∀ d, 0 ≤ (f d).totalKw ∧ 0 ≤ (f d).maxKwInHour) :
    ∀ (l : List ℕ) (acc : MonthlySummary),
      0 ≤ acc.totalKw → 0 ≤ acc.bestDayKw → 0 ≤ acc.bestHourKw →
      0 ≤ (l.foldl (fun a d => monthlyStep a d (f d)) acc).totalKw ∧
        0 ≤ (l.foldl (fun a d => monthlyStep a d (f d)) acc).bestDayKw ∧
        0 ≤ (l.foldl (fun a d => monthlyStep a d (f d)) acc).bestHourKw := by
  intro l
  induction l with
  | nil => intro acc h1 h2 h3; exact ⟨h1, h2, h3⟩
  | cons d l ih =>
    intro acc h1 h2 h3
    simp only [List.foldl_cons]
    refine ih _ ?_ ?_ ?_
    · rw [monthlyStep_totalKw]
      exact add_nonneg h1 (hf d).1
    · rw [monthlyStep_bestDayKw]
      split
      · exact (hf d).1
      · exact h2
    · rw [monthlyStep_bestHourKw]
      split
      · exact (hf d).2
      · exact h3

theorem foldl_monthly_bestDay_zero (f : ℕ → DailySummary) :
    ∀ (l : List ℕ) (acc : MonthlySummary),
      (∀ d ∈ l, (f d).totalKw = 0) → acc.bestDayKw = 0 → acc.bestDayDay = 0 →
      (l.foldl (fun a d => monthlyStep a d (f d)) acc).bestDayKw = 0 ∧
        (l.foldl (fun a d => monthlyStep a d (f d)) acc).bestDayDay = 0 := by
  intro l
  induction l with
  | nil => intro acc _ h2 h3; exact ⟨h2, h3⟩
  | cons d l ih =>
    intro acc hl h2 h3
    simp only [List.foldl_cons]
    have hd : (f d).totalKw = 0 := hl d (List.mem_cons_self d l)
    have hnot : ¬((f d).totalKw > acc.bestDayKw) := by
      rw [hd, h2]
      exact lt_irrefl 0
    refine ih _ (fun x hx => hl x (List.mem_cons_of_mem d hx)) ?_ ?_
    · rw [monthlyStep_bestDayKw, if_neg hnot]
      exact h2
    · rw [monthlyStep_bestDayDay, if_neg hnot]
      exact h3

theorem foldl_yearly_totalKw (f : ℕ → MonthlySummary) :
    ∀ (l : List ℕ) (acc : YearlySummary),
      ((l.foldl (fun a mo => yearlyStep a mo (f mo)) acc).totalKw) =
        acc.totalKw + (l.map fun mo => (f mo).totalKw).sum := by
  intro l
  induction l with
  | nil => intro acc; simp
  | cons mo l ih =>
    intro acc
    simp only [List.foldl_cons, List.map_cons, List.sum_cons]
    rw [ih, yearlyStep_totalKw]
    ring

theorem foldl_yearly_nonneg (f : ℕ → MonthlySummary)
    (hf : ∀ mo, 0 ≤ (f mo).totalKw ∧ 0 ≤ (f mo).bestDayKw ∧ 0 ≤ (f mo).bestHourKw) :
    ∀ (l : List ℕ) (acc : YearlySummary),
      0 ≤ acc.totalKw → 0 ≤ acc.bestMonthKw → 0 ≤ acc.bestDayKw → 0 ≤ acc.bestHourKw →
      0 ≤ (l.foldl (fun a mo => yearlyStep a mo (f mo)) acc).totalKw ∧
        0 ≤ (l.foldl (fun a mo => yearlyStep a mo (f mo)) acc).bestMonthKw ∧
        0 ≤ (l.foldl (fun a mo => yearlyStep a mo (f mo)) acc).bestDayKw ∧
        0 ≤ (l.foldl (fun a mo => yearlyStep a mo (f mo)) acc).bestHourKw := by
  intro l
  induction l with
  | nil => intro acc h1 h2 h3 h4; exact ⟨h1, h2, h3, h4⟩
  | cons mo l ih =>
    intro acc h1 h2 h3 h4
    simp only [List.foldl_cons]
    refine ih _ ?_ ?_ ?_ ?_
    · rw [yearlyStep_totalKw]
      exact add_nonneg h1 (hf mo).1
    · rw [yearlyStep_bestMonthKw]
      split
      · exact (hf mo).1
      · exact h2
    · rw [yearlyStep_bestDayKw]
      split
      · exact (hf mo).2.1
      · exact h3
    · rw [yearlyStep_bestHourKw]
      split
      · exact (hf mo).2.2
      · exact h4

theorem foldl_yearly_bestMonth_zero (f : ℕ → MonthlySummary) :
    ∀ (l : List ℕ) (acc : YearlySummary),
      (∀ mo ∈ l, (f mo).totalKw = 0) → acc.bestMonthKw = 0 → acc.bestMonthMonth = 0 →
      (l.foldl (fun a mo => yearlyStep a mo (f mo)) acc).bestMonthKw = 0 ∧
        (l.foldl (fun a mo => yearlyStep a mo (f mo)) acc).bestMonthMonth = 0 := by
  intro l
  induction l with
  | nil => intro acc _ h2 h3; exact ⟨h2, h3⟩
  | cons mo l ih =>
    intro acc hl h2 h3
    simp only [List.foldl_cons]
    have hmo : (f mo).totalKw = 0 := hl mo (List.mem_cons_self mo l)
    have hnot : ¬((f mo).totalKw > acc.bestMonthKw) := by
      rw [hmo, h2]
      exact lt_irrefl 0
    refine ih _ (fun x hx => hl x (List.mem_cons_of_mem mo hx)) ?_ ?_
    · rw [yearlyStep_bestMonthKw, if_neg hnot]
      exact h2
    · rw [yearlyStep_bestMonthMonth, if_neg hnot]
      exact h3

theorem foldl_yearlyStepE_ok (gmt : ℤ) (lo la ma mt ce : ℝ) :
    ∀ (l : List ℕ) (acc : YearlySummary),
      (∀ mo ∈ l, (days_in_month mo).isSome) →
      (l.foldl (yearlyStepE gmt lo la ma mt ce) (Except.ok acc)) =
        Except.ok (l.foldl
          (fun a mo => yearlyStep a mo (monthlySummaryOf gmt lo la ma mt ce mo)) acc) := by
  intro l
  induction l with
  | nil => intro acc _; rfl
  | cons mo l ih =>
    intro acc hl
    obtain ⟨n, hn⟩ := Option.isSome_iff_exists.mp (hl mo (List.mem_cons_self mo l))
    simp only [List.foldl_cons]
    rw [show yearlyStepE gmt lo la ma mt ce (Except.ok acc) mo =
        Except.ok (yearlyStep acc mo (monthlySummaryOf gmt lo la ma mt ce mo)) by
      unfold yearlyStepE
      rw [monthly_kw_eq gmt lo la ma mt ce hn]]
    exact ih _ (fun x hx => hl x (List.mem_cons_of_mem mo hx))

theorem yearly_kw_eq (gmt : ℤ) (lo la ma mt ce : ℝ) :
    yearly_kw gmt lo la ma mt ce =
      Except.ok { yearlyFold gmt lo la ma mt ce with
        averageDailyKw := (yearlyFold gmt lo la ma mt ce).totalKw / 365,
        averageMonthlyKw := (yearlyFold gmt lo la ma mt ce).totalKw / 12 } := by
  unfold yearly_kw
  rw [foldl_yearlyStepE_ok gmt lo la ma mt ce (List.range' 1 12) yearInit (by decide)]
  rfl

theorem daily_kw_total_nonneg (day : ℤ) (gmt : ℤ) (lo la ma mt ce : ℝ)
    (hce : 0 ≤ ce) : 0 ≤ (daily_kw day gmt lo la ma mt ce).totalKw := by
  rw [daily_kw_totalKw]
  apply List.sum_nonneg
  intro x hx
  obtain ⟨i, _, hi⟩ := List.mem_map.mp hx
  rw [← hi]
  exact effKw_nonneg day gmt lo la ma mt ce i hce

theorem foldl_dailyStep_max_nonneg (day : ℤ) (gmt : ℤ) (lo la ma mt ce : ℝ)
    (hce : 0 ≤ ce) :
    ∀ (l : List ℕ) (acc : DailySummary), 0 ≤ acc.maxKwInHour →
      0 ≤ ((l.foldl (dailyStep day gmt lo la ma mt ce) acc).maxKwInHour) := by
  intro l
  induction l with
  | nil => intro acc h; exact h
  | cons i l ih =>
    intro acc h
    simp only [List.foldl_cons]
    refine ih _ ?_
    unfold dailyStep
    cases hm : momentData (dailyInput day gmt i lo la ma mt ce)
    · exact h
    · rename_i st
      rw [dailyStepOk_maxKwInHour]
      split
      · rw [momentData_ok hm]
        exact generated_kw_nonneg _ hce
      · exact h

theorem daily_kw_max_nonneg (day : ℤ) (gmt : ℤ) (lo la ma mt ce : ℝ)
    (hce : 0 ≤ ce) : 0 ≤ (daily_kw day gmt lo la ma mt ce).maxKwInHour := by
  unfold daily_kw
  rw [show ∀ r : DailySummary, ∀ x,
    ({ r with fractionHoursActive := x } : DailySummary).maxKwInHour = r.maxKwInHour
    from fun r x => rfl]
  exact foldl_dailyStep_max_nonneg day gmt lo la ma mt ce hce _ _ (le_refl 0)

theorem monthlySummaryOf_totalKw (gmt : ℤ) (lo la ma mt ce : ℝ) {month n : ℕ}
    (h : days_in_month month = some n) :
    (monthlySummaryOf gmt lo la ma mt ce month).totalKw =
      ((List.range' 1 n).map fun d =>
        (daily_kw ((monthBase month + d : ℕ) : ℤ) gmt lo la ma mt ce).totalKw).sum := by
  unfold monthlySummaryOf
  rw [h]
  dsimp only
  rw [show ∀ r : MonthlySummary, ∀ x,
    ({ r with averageDailyKw := x } : MonthlySummary).totalKw = r.totalKw
    from fun r x => rfl]
  rw [foldl_monthly_totalKw
    (fun d => daily_kw ((monthBase month + d : ℕ) : ℤ) gmt lo la ma mt ce)]
  simp

theorem monthlySummaryOf_avg (gmt : ℤ) (lo la ma mt ce : ℝ) {month n : ℕ}
    (h : days_in_month month = some n) :
    (monthlySummaryOf gmt lo la ma mt ce month).averageDailyKw =
      (monthlySummaryOf gmt lo la ma mt ce month).totalKw / (n : ℝ) := by
  unfold monthlySummaryOf
  rw [h]

theorem monthlySummaryOf_nonneg (gmt : ℤ) (lo la ma mt ce : ℝ) (month : ℕ)
    (hce : 0 ≤ ce) :
    0 ≤ (monthlySummaryOf gmt lo la ma mt ce month).totalKw ∧
      0 ≤ (monthlySummaryOf gmt lo la ma mt ce month).bestDayKw ∧
      0 ≤ (monthlySummaryOf gmt lo la ma mt ce month).bestHourKw ∧
      0 ≤ (monthlySummaryOf gmt lo la ma mt ce month).averageDailyKw := by
  unfold monthlySummaryOf
  cases h : days_in_month month
  · exact ⟨le_refl 0, le_refl 0, le_refl 0, le_refl 0⟩
  · rename_i n
    dsimp only
    have hfold := foldl_monthly_nonneg
      (fun d => daily_kw ((monthBase month + d : ℕ) : ℤ) gmt lo la ma mt ce)
      (fun d => ⟨daily_kw_total_nonneg _ _ _ _ _ _ _ hce,
        daily_kw_max_nonneg _ _ _ _ _ _ _ hce⟩)
      (List.range' 1 n)
      { month := month, totalDays := n, totalKw := 0, bestDayDay := 0, bestDayKw := 0,
        bestHourDay := 0, bestHourHour := 0, bestHourKw := 0, averageDailyKw := 0 }
      (le_refl 0) (le_refl 0) (le_refl 0)
    refine ⟨hfold.1, hfold.2.1, hfold.2.2, ?_⟩
    exact div_nonneg hfold.1 (Nat.cast_nonneg n)

theorem yearlyFold_totalKw (gmt : ℤ) (lo la ma mt ce : ℝ) :
    (yearlyFold gmt lo la ma mt ce).totalKw =
      ((List.range' 1 12).map fun mo =>
        (monthlySummaryOf gmt lo la ma mt ce mo).totalKw).sum := by
  unfold yearlyFold
  rw [foldl_yearly_totalKw (monthlySummaryOf gmt lo la ma mt ce)]
  simp [yearInit]

theorem yearlyFold_nonneg (gmt : ℤ) (lo la ma mt ce : ℝ) (hce : 0 ≤ ce) :
    0 ≤ (yearlyFold gmt lo la ma mt ce).totalKw ∧
      0 ≤ (yearlyFold gmt lo la ma mt ce).bestMonthKw ∧
      0 ≤ (yearlyFold gmt lo la ma mt ce).bestDayKw ∧
      0 ≤ (yearlyFold gmt lo la ma mt ce).bestHourKw := by
  unfold yearlyFold
  exact foldl_yearly_nonneg (monthlySummaryOf gmt lo la ma mt ce)
    (fun mo =>
      ⟨(monthlySummaryOf_nonneg gmt lo la ma mt ce mo hce).1,
        (monthlySummaryOf_nonneg gmt lo la ma mt ce mo hce).2.1,
        (monthlySummaryOf_nonneg gmt lo la ma mt ce mo hce).2.2.1⟩)
    (List.range' 1 12) yearInit (le_refl 0) (le_refl 0) (le_refl 0) (le_refl 0)

theorem setDay_setDay (m : MomentIn) (x y : ℤ) :
    ({ ({ m with day := x } : MomentIn) with day := y } : MomentIn) =
      { m with day := y } := rfl

theorem foldl_calcDayStep_snd (g : ℕ → ℤ) :
    ∀ (l : List ℕ) (a : ℝ) (m0 : MomentIn),
      ((l.foldl (calcDayStep g) (a, m0)).2) =
        l.foldl (fun m d => { m with day := g d }) m0 := by
  intro l
  induction l with
  | nil => intro a m0; rfl
  | cons d l ih =>
    intro a m0
    simp only [List.foldl_cons, calcDayStep]
    exact ih _ _

theorem foldl_calcDayStep_fst (g : ℕ → ℤ) :
    ∀ (l : List ℕ) (a : ℝ) (m0 : MomentIn),
      ((l.foldl (calcDayStep g) (a, m0)).1) =
        a + (l.map fun d => calcDaily { m0 with day := g d }).sum := by
  intro l
  induction l with
  | nil => intro a m0; simp
  | cons d l ih =>
    intro a m0
    simp only [List.foldl_cons, calcDayStep, List.map_cons, List.sum_cons]
    rw [ih]
    simp only [setDay_setDay]
    ring

theorem foldl_setDay_range' (g : ℕ → ℤ) :
    ∀ (n : ℕ) (m0 : MomentIn),
      ((List.range' 1 (n + 1)).foldl (fun m d => { m with day := g d }) m0) =
        { m0 with day := g (n + 1) } := by
  intro n
  induction n with
  | zero => intro m0; rfl
  | succ k ih =>
    intro m0
    rw [List.range'_concat, List.foldl_append, ih]
    simp only [List.foldl_cons, List.foldl_nil]
    rw [setDay_setDay]
    rw [show (1 + 1 * (k + 1) : ℕ) = k + 1 + 1 from by omega]

theorem calc_month_eq (md : MomentIn) {month n : ℕ}
    (h : days_in_month month = some n) :
    calc_month md month = Except.ok
      (((List.range' 1 n).map fun d =>
          calcDaily { md with day := ((monthBase month + d : ℕ) : ℤ) }).sum,
        { md with day := ((monthBase month + n : ℕ) : ℤ) }) := by
  unfold calc_month
  rw [h]
  refine congrArg Except.ok (Prod.ext ?_ ?_)
  · rw [foldl_calcDayStep_fst, zero_add]
  · rw [foldl_calcDayStep_snd]
    obtain ⟨k, rfl⟩ : ∃ k, n = k + 1 := ⟨n - 1, by have := days_in_month_pos h; omega⟩
    exact foldl_setDay_range' _ k md

theorem calc_year_eq (md : MomentIn) :
    calc_year md =
      (((List.range' 1 365).map fun d : ℕ => calcDaily { md with day := (d : ℤ) }).sum,
        { md with day := ((365 : ℕ) : ℤ) }) := by
  unfold calc_year
  rw [show (365 : ℕ) = 364 + 1 from rfl]
  refine Prod.ext ?_ ?_
  · rw [foldl_calcDayStep_fst, zero_add]
  · rw [foldl_calcDayStep_snd]
    exact foldl_setDay_range' _ 364 md

theorem calcMonthTotal_eq (md : MomentIn) {month n : ℕ}
    (h : days_in_month month = some n) :
    calcMonthTotal md month = ((List.range' 1 n).map fun d =>
      calcDaily { md with day := ((monthBase month + d : ℕ) : ℤ) }).sum := by
  unfold calcMonthTotal
  rw [calc_month_eq md h]

theorem days_in_month_valid : ∀ mo ∈ List.range' 1 12, days_in_month mo = some (dim mo) := by
  decide

theorem month_days_partition :
    ((List.range' 1 12).map fun mo => List.range' (monthBase mo + 1) (dim mo)).flatten
      = List.range' 1 365 := by
  decide

theorem sum_over_months (F : ℕ → ℝ) :
    ((List.range' 1 12).map fun mo =>
        ((List.range' 1 (dim mo)).map fun d => F (monthBase mo + d)).sum).sum
      = ((List.range' 1 365).map F).sum := by
  have h1 : ∀ mo : ℕ, (List.range' 1 (dim mo)).map (fun d => F (monthBase mo + d))
      = (List.range' (monthBase mo + 1) (dim mo)).map F := by
    intro mo
    rw [← List.map_add_range' (monthBase mo) 1 (dim mo), List.map_map]
    rfl
  simp only [h1]
  have h2 := List.sum_flatten
    (l := (List.range' 1 12).map fun mo => (List.range' (monthBase mo + 1) (dim mo)).map F)
  have h3 : List.map List.sum
      ((List.range' 1 12).map fun mo => (List.range' (monthBase mo + 1) (dim mo)).map F)
      = (List.range' 1 12).map fun mo =>
          ((List.range' (monthBase mo + 1) (dim mo)).map F).sum := by
    rw [List.map_map]
    rfl
  have h4 : ((List.range' 1 12).map fun mo =>
        (List.range' (monthBase mo + 1) (dim mo)).map F).flatten
      = List.map F (((List.range' 1 12).map fun mo =>
          List.range' (monthBase mo + 1) (dim mo)).flatten) := by
    rw [List.map_flatten, List.map_map]
    rfl
  rw [← h3, ← h2, h4, month_days_partition]

theorem calc_year_total (md : MomentIn) :
    (calc_year md).1 = ((List.range' 1 12).map fun mo => calcMonthTotal md mo).sum := by
  rw [calc_year_eq]
  dsimp only
  rw [List.map_congr_left
    (fun mo hmo => calcMonthTotal_eq md (days_in_month_valid mo hmo))]
  exact (sum_over_months fun k => calcDaily { md with day := (k : ℤ) }).symm

theorem radians_zero : radians 0 = 0 := by
  unfold radians
  ring

theorem probe_data_B (hour ma mt ce : ℝ) : data_B (probe hour ma mt ce) = 0 := by
  simp only [data_B, probe]
  norm_num

theorem probe_dec_ang (hour ma mt ce : ℝ) : dec_ang (probe hour ma mt ce) = 0 := by
  unfold dec_ang
  rw [probe_data_B, radians_zero, Real.sin_zero, mul_zero]

theorem probe_eot (hour ma mt ce : ℝ) : eot (probe hour ma mt ce) = -7.53 := by
  unfold eot
  rw [probe_data_B]
  norm_num [radians_zero]

theorem probe_hra (hour ma mt ce : ℝ) (hh : hour = 12) :
    hra (probe hour ma mt ce) = 0 := by
  unfold hra lst tc lstm
  rw [probe_eot]
  subst hh
  simp only [probe]
  norm_num

theorem probe_asinArg (hour ma mt ce : ℝ) (hh : hour = 12) :
    asinArg (probe hour ma mt ce) = 1 := by
  unfold asinArg
  rw [probe_dec_ang, probe_hra hour ma mt ce hh, radians_zero]
  simp [probe, radians_zero]

theorem probe_ev_ang (hour ma mt ce : ℝ) (hh : hour = 12) :
    ev_ang (probe hour ma mt ce) = 90 := by
  unfold ev_ang degrees
  rw [probe_asinArg hour ma mt ce hh, Real.arcsin_one]
  have hπ := Real.pi_ne_zero
  field_simp
  ring

theorem probe_az_denominator (hour ma mt ce : ℝ) (hh : hour = 12) :
    az_denominator (probe hour ma mt ce) = 0 := by
  unfold az_denominator
  rw [probe_ev_ang hour ma mt ce hh]
  rw [show radians 90 = Real.pi / 2 from by unfold radians; ring]
  exact Real.cos_pi_div_two

theorem probe_momentErr (hour ma mt ce : ℝ) (hh : hour = 12) :
    momentErr (probe hour ma mt ce) = some PyErr.zeroDivision := by
  unfold momentErr
  rw [probe_asinArg hour ma mt ce hh, probe_az_denominator hour ma mt ce hh]
  rw [if_neg (by norm_num), if_pos rfl]

theorem probe_momentData (hour ma mt ce : ℝ) (hh : hour = 12) :
    momentData (probe hour ma mt ce) = Except.error PyErr.zeroDivision := by
  unfold momentData
  rw [probe_momentErr hour ma mt ce hh]

theorem effKw_eq_of_ok {day : ℤ} {gmt : ℤ} {lo la ma mt ce : ℝ} {i : ℕ}
    {st : MomentState}
    (h : momentData (dailyInput day gmt i lo la ma mt ce) = Except.ok st) :
    effKw day gmt lo la ma mt ce i = st.generated_kw := by
  unfold effKw
  rw [h]

theorem foldl_dailyStep_zero (day : ℤ) (gmt : ℤ) (lo la ma mt ce : ℝ) :
    ∀ (l : List ℕ) (acc : DailySummary),
      (∀ i ∈ l, effKw day gmt lo la ma mt ce i ≤ 0) →
      acc.maxKwInHour = 0 → acc.hourOfMax = 0 → acc.hoursWithGeneration = [] →
      (l.foldl (dailyStep day gmt lo la ma mt ce) acc).maxKwInHour = 0 ∧
        (l.foldl (dailyStep day gmt lo la ma mt ce) acc).hourOfMax = 0 ∧
        (l.foldl (dailyStep day gmt lo la ma mt ce) acc).hoursWithGeneration = [] := by
  intro l
  induction l with
  | nil => intro acc _ h1 h2 h3; exact ⟨h1, h2, h3⟩
  | cons i l ih =>
    intro acc hl h1 h2 h3
    simp only [List.foldl_cons]
    have hi : effKw day gmt lo la ma mt ce i ≤ 0 := hl i (List.mem_cons_self i l)
    have hrest : ∀ j ∈ l, effKw day gmt lo la ma mt ce j ≤ 0 :=
      fun j hj => hl j (List.mem_cons_of_mem i hj)
    refine ih _ hrest ?_ ?_ ?_ <;>
      unfold dailyStep <;>
      cases hm : momentData (dailyInput day gmt i lo la ma mt ce)
    · exact h1
    · rename_i st
      have hkw : st.generated_kw ≤ 0 := by
        rw [effKw_eq_of_ok hm] at hi
        exact hi
      rw [dailyStepOk_maxKwInHour, if_neg (by rw [h1]; exact not_lt.mpr hkw)]
      exact h1
    · exact h2
    · rename_i st
      have hkw : st.generated_kw ≤ 0 := by
        rw [effKw_eq_of_ok hm] at hi
        exact hi
      rw [dailyStepOk_hourOfMax, if_neg (by rw [h1]; exact not_lt.mpr hkw)]
      exact h2
    · exact h3
    · rename_i st
      have hkw : st.generated_kw ≤ 0 := by
        rw [effKw_eq_of_ok hm] at hi
        exact hi
      rw [dailyStepOk_hours, if_neg (not_lt.mpr hkw)]
      exact h3

theorem monthlySummaryOf_bestDay_zero (gmt : ℤ) (lo la ma mt ce : ℝ) {month n : ℕ}
    (h : days_in_month month = some n)
    (hz : ∀ d ∈ List.range' 1 n,
      (daily_kw ((monthBase month + d : ℕ) : ℤ) gmt lo la ma mt ce).totalKw = 0) :
    (monthlySummaryOf gmt lo la ma mt ce month).bestDayKw = 0 ∧
      (monthlySummaryOf gmt lo la ma mt ce month).bestDayDay = 0 := by
  unfold monthlySummaryOf
  rw [h]
  dsimp only
  rw [show ∀ r : MonthlySummary, ∀ x,
      ({ r with averageDailyKw := x } : MonthlySummary).bestDayKw = r.bestDayKw
      from fun r x => rfl,
    show ∀ r : MonthlySummary, ∀ x,
      ({ r with averageDailyKw := x } : MonthlySummary).bestDayDay = r.bestDayDay
      from fun r x => rfl]
  exact foldl_monthly_bestDay_zero
    (fun d => daily_kw ((monthBase month + d : ℕ) : ℤ) gmt lo la ma mt ce)
    (List.range' 1 n) _ hz rfl rfl

theorem yearlyFold_bestMonth_zero (gmt : ℤ) (lo la ma mt ce : ℝ)
    (hz : ∀ mo ∈ List.range' 1 12, (monthlySummaryOf gmt lo la ma mt ce mo).totalKw = 0) :
    (yearlyFold gmt lo la ma mt ce).bestMonthKw = 0 ∧
      (yearlyFold gmt lo la ma mt ce).bestMonthMonth = 0 := by
  unfold yearlyFold
  exact foldl_yearly_bestMonth_zero (monthlySummaryOf gmt lo la ma mt ce)
    (List.range' 1 12) yearInit hz rfl rfl

theorem effKw_eff_zero (day : ℤ) (gmt : ℤ) (lo la ma mt : ℝ) (i : ℕ) :
    effKw day gmt lo la ma mt 0 i = 0 := by
  unfold effKw
  cases h : momentData (dailyInput day gmt i lo la ma mt 0)
  · rfl
  · rename_i st
    rw [momentData_ok h]
    show generated_kw (dailyInput day gmt i lo la ma mt 0) = 0
    unfold generated_kw
    exact mul_zero _

theorem daily_total_eff_zero (day : ℤ) (gmt : ℤ) (lo la ma mt : ℝ) :
    (daily_kw day gmt lo la ma mt 0).totalKw = 0 := by
  rw [daily_kw_totalKw]
  rw [List.map_congr_left fun i _ => effKw_eff_zero day gmt lo la ma mt i]
  simp

/-! Claim theorems. -/

/-- C1: for every day and parameter set, an hour whose MomentData constructor
raises leaves the accumulator of GeneratedKw.daily_kw completely unchanged (it
contributes 0 to the total, does not update the maximum or its hour, and is not
appended to the active-hours list), and likewise for the per-hour sum of
Calculation.daily_kw in data.py; the 24-hour loop itself always completes and
returns a full DailySummary whose day field and active-hours fraction are
correctly filled in, so no per-hour error reaches the caller. -/
theorem c1_daily_error_containment (day : ℤ) (gmt : ℤ) (lo la ma mt ce : ℝ)
    (i : ℕ) (acc : DailySummary) (md : MomentIn) (s : ℝ)
    (h1 : ∃ e, momentData (dailyInput day gmt i lo la ma mt ce) = Except.error e)
    (h2 : ∃ e, momentData { md with hour := (i : ℝ) } = Except.error e) :
    dailyStep day gmt lo la ma mt ce acc i = acc ∧
      calcDailyStep md s i = s ∧
      (daily_kw day gmt lo la ma mt ce).day = day ∧
      (daily_kw day gmt lo la ma mt ce).fractionHoursActive =
        ((daily_kw day gmt lo la ma mt ce).hoursWithGeneration.length : ℝ) / 24 := by
  obtain ⟨e1, he1⟩ := h1
  obtain ⟨e2, he2⟩ := h2
  refine ⟨?_, ?_, daily_kw_day day gmt lo la ma mt ce,
    daily_kw_fraction day gmt lo la ma mt ce⟩
  · unfold dailyStep
    rw [he1]
  · unfold calcDailyStep
    rw [he2]

/-- Witness for C1 at a concrete erroring hour: day 81, gmt 0, longitude
1.8825, latitude 0, hour 12, where the azimuth division is by cos(90°) = 0. -/
theorem c1_witness :
    dailyStep 81 0 1.8825 0 0 0 1 ⟨81, 0, 0, 0, [], 0⟩ 12 = ⟨81, 0, 0, 0, [], 0⟩ ∧
      calcDailyStep (probe 0 0 0 1) 5 12 = 5 ∧
      (daily_kw 81 0 1.8825 0 0 0 1).day = 81 ∧
      (daily_kw 81 0 1.8825 0 0 0 1).fractionHoursActive =
        ((daily_kw 81 0 1.8825 0 0 0 1).hoursWithGeneration.length : ℝ) / 24 := by
  have he := probe_momentData ((12 : ℕ) : ℝ) 0 0 1 (by norm_num)
  exact c1_daily_error_containment 81 0 1.8825 0 0 0 1 12 ⟨81, 0, 0, 0, [], 0⟩
    (probe 0 0 0 1) 5 ⟨PyErr.zeroDivision, he⟩ ⟨PyErr.zeroDivision, he⟩

/-- C6: the single-moment computation ends in a raised exception (never a
silently produced value) whenever the elevation arcsine argument leaves
[-1, 1], the azimuth denominator cos(radians(elevation)) is exactly zero, or
the zenith angle is exactly 96.07995 degrees (the air-mass singularity). -/
theorem c6_moment_domain_errors (m : MomentIn)
    (h : asinArg m < -1 ∨ 1 < asinArg m ∨ az_denominator m = 0 ∨
      zenith_ang m = 96.07995) :
    ∃ e, momentData m = Except.error e := by
  unfold momentData momentErr
  by_cases h1 : asinArg m < -1 ∨ 1 < asinArg m
  · rw [if_pos h1]
    exact ⟨_, rfl⟩
  · rw [if_neg h1]
    by_cases h2 : az_denominator m = 0
    · rw [if_pos h2]
      exact ⟨_, rfl⟩
    · rw [if_neg h2]
      by_cases h3 : air_mass_base m = 0
      · rw [if_pos h3]
        exact ⟨_, rfl⟩
      · exfalso
        rcases h with ha | hb | hc | hd
        · exact h1 (Or.inl ha)
        · exact h1 (Or.inr hb)
        · exact h2 hc
        · apply h3
          unfold air_mass_base
          rw [hd]
          ring

/-- Witness for C6: the probe input at hour 12 has elevation exactly 90°, so
its azimuth denominator is exactly 0 and the constructor raises. -/
theorem c6_witness :
    (asinArg (probe 12 180 47 1) < -1 ∨ 1 < asinArg (probe 12 180 47 1) ∨
      az_denominator (probe 12 180 47 1) = 0 ∨
      zenith_ang (probe 12 180 47 1) = 96.07995) ∧
    ∃ e, momentData (probe 12 180 47 1) = Except.error e := by
  have hd : az_denominator (probe 12 180 47 1) = 0 :=
    probe_az_denominator 12 180 47 1 rfl
  exact ⟨Or.inr (Or.inr (Or.inl hd)),
    c6_moment_domain_errors (probe 12 180 47 1) (Or.inr (Or.inr (Or.inl hd)))⟩

/-- C7: whenever the hour angle is 0 or negative the final azimuth angle equals
the arccos base value (the morning branch); the reflected value 360 - base is
selected exactly when the hour angle is strictly positive. -/
theorem c7_azimuth_branch (m : MomentIn) :
    (hra m ≤ 0 → az_ang m = azimuth_base m) ∧
      (0 < hra m → az_ang m = 360 - azimuth_base m) := by
  unfold az_ang
  constructor
  · intro h
    rw [if_neg (not_lt.mpr h)]
  · intro h
    rw [if_pos h]

/-- Witness for C7 at the exact boundary: the probe input at hour 12 has hour
angle exactly 0 and takes the morning branch. -/
theorem c7_witness :
    hra (probe 12 0 47 1) ≤ 0 ∧
      az_ang (probe 12 0 47 1) = azimuth_base (probe 12 0 47 1) := by
  have h0 : hra (probe 12 0 47 1) = 0 := probe_hra 12 0 47 1 rfl
  have hle : hra (probe 12 0 47 1) ≤ 0 := le_of_eq h0
  exact ⟨hle, (c7_azimuth_branch (probe 12 0 47 1)).1 hle⟩

/-- C9: the module-plane projection fraction computed by MomentData equals,
for every input, the nested formula cos(elevation) * sin(tilt * cos(azimuth -
moduleAzimuth)) + sin(elevation) * cos(tilt) (degrees converted to radians),
with the tilt multiplied by the cosine inside the outer sine; the fraction
attribute stored on the successful MomentData state is exactly this value. -/
theorem c9_fraction_nesting (m : MomentIn) :
    fraction m = fractionSpec (ev_ang m) m.module_tilt (az_ang m) m.module_azimuth ∧
      (momentState m).fraction = fraction m :=
  ⟨rfl, rfl⟩

/-- C2: for every parameter set, the monthly total equals the sum of the daily
totals over the month's days (taken at the fixed non-leap day-of-year offsets),
the yearly total of GeneratedKw.yearly_kw equals the sum of the twelve monthly
totals, and the data.py variant Calculation.calc_year, which iterates days
1..365 directly, also equals the sum of the twelve Calculation.calc_month
totals. -/
theorem c2_additivity (gmt : ℤ) (lo la ma mt ce : ℝ) :
    (∀ month n, days_in_month month = some n →
      (monthly_kw gmt lo la ma mt ce month).map MonthlySummary.totalKw =
        Except.ok (((List.range' 1 n).map fun d =>
          (daily_kw ((monthBase month + d : ℕ) : ℤ) gmt lo la ma mt ce).totalKw).sum)) ∧
      ((yearly_kw gmt lo la ma mt ce).map YearlySummary.totalKw =
        Except.ok (((List.range' 1 12).map fun month =>
          monthlyTotalKw gmt lo la ma mt ce month).sum)) ∧
      (∀ md : MomentIn, (calc_year md).1 =
        ((List.range' 1 12).map fun month => calcMonthTotal md month).sum) := by
  refine ⟨?_, ?_, calc_year_total⟩
  · intro month n h
    rw [monthly_kw_eq gmt lo la ma mt ce h]
    simp only [Except.map]
    exact congrArg Except.ok (monthlySummaryOf_totalKw gmt lo la ma mt ce h)
  · rw [yearly_kw_eq]
    simp only [Except.map]
    refine congrArg Except.ok ?_
    rw [show ({ yearlyFold gmt lo la ma mt ce with
        averageDailyKw := (yearlyFold gmt lo la ma mt ce).totalKw / 365,
        averageMonthlyKw := (yearlyFold gmt lo la ma mt ce).totalKw / 12 } :
          YearlySummary).totalKw = (yearlyFold gmt lo la ma mt ce).totalKw from rfl]
    rw [yearlyFold_totalKw]
    refine congrArg List.sum ?_
    refine (List.map_congr_left ?_).symm
    intro mo hmo
    unfold monthlyTotalKw
    rw [monthly_kw_eq gmt lo la ma mt ce (days_in_month_valid mo hmo)]

/-- Witness for C2 with all parameters 0, month 1 (31 days). -/
theorem c2_witness :
    (monthly_kw 0 0 0 0 0 0 1).map MonthlySummary.totalKw =
      Except.ok (((List.range' 1 31).map fun d =>
        (daily_kw ((monthBase 1 + d : ℕ) : ℤ) 0 0 0 0 0 0).totalKw).sum) ∧
    (yearly_kw 0 0 0 0 0 0).map YearlySummary.totalKw =
      Except.ok (((List.range' 1 12).map fun month =>
        monthlyTotalKw 0 0 0 0 0 0 month).sum) ∧
    (calc_year (probe 0 0 0 0)).1 =
      ((List.range' 1 12).map fun month => calcMonthTotal (probe 0 0 0 0) month).sum := by
  obtain ⟨h1, h2, h3⟩ := c2_additivity 0 0 0 0 0 0
  exact ⟨h1 1 31 rfl, h2, h3 (probe 0 0 0 0)⟩

/-- C3: when the efficiency constant is nonnegative, every successful moment
has nonnegative module irradiance and generated power, and consequently every
kW field of every daily, monthly and yearly summary (totals, per-hour maxima,
best-day, best-hour and best-month records, and all averages) is nonnegative. -/
theorem c3_nonneg (gmt : ℤ) (lo la ma mt ce : ℝ) (hce : 0 ≤ ce) :
    (∀ m : MomentIn, 0 ≤ m.constant_eff → ∀ st, momentData m = Except.ok st →
        0 ≤ st.s_module ∧ 0 ≤ st.generated_kw) ∧
      (∀ day : ℤ, 0 ≤ (daily_kw day gmt lo la ma mt ce).totalKw ∧
        0 ≤ (daily_kw day gmt lo la ma mt ce).maxKwInHour) ∧
      (∀ month ms, monthly_kw gmt lo la ma mt ce month = Except.ok ms →
        0 ≤ ms.totalKw ∧ 0 ≤ ms.bestDayKw ∧ 0 ≤ ms.bestHourKw ∧
          0 ≤ ms.averageDailyKw) ∧
      (∀ ys, yearly_kw gmt lo la ma mt ce = Except.ok ys →
        0 ≤ ys.totalKw ∧ 0 ≤ ys.bestMonthKw ∧ 0 ≤ ys.bestDayKw ∧
          0 ≤ ys.bestHourKw ∧ 0 ≤ ys.averageDailyKw ∧ 0 ≤ ys.averageMonthlyKw) := by
  refine ⟨?_, ?_, ?_, ?_⟩
  · intro m hm st hst
    rw [momentData_ok hst]
    exact ⟨s_module_nonneg m, generated_kw_nonneg m hm⟩
  · intro day
    exact ⟨daily_kw_total_nonneg day gmt lo la ma mt ce hce,
      daily_kw_max_nonneg day gmt lo la ma mt ce hce⟩
  · intro month ms hms
    obtain ⟨rfl, -⟩ := monthly_kw_ok_inv hms
    exact monthlySummaryOf_nonneg gmt lo la ma mt ce month hce
  · intro ys hys
    rw [yearly_kw_eq] at hys
    injection hys with h
    subst h
    have hf := yearlyFold_nonneg gmt lo la ma mt ce hce
    exact ⟨hf.1, hf.2.1, hf.2.2.1, hf.2.2.2,
      div_nonneg hf.1 (by norm_num), div_nonneg hf.1 (by norm_num)⟩

/-- Witness for C3 at efficiency constant 1, day 1. -/
theorem c3_witness :
    0 ≤ (daily_kw 1 0 0 0 0 0 1).totalKw ∧
      0 ≤ (daily_kw 1 0 0 0 0 0 1).maxKwInHour := by
  exact (c3_nonneg 0 0 0 0 0 1 (by norm_num)).2.1 1

/-- C8: every best-record field updates only on strict improvement; a later
value equal to the current record leaves the earlier winner unchanged, at the
daily level (maxKwInHour / hourOfMax), the monthly level (bestDay, bestHour)
and the yearly level (bestMonth, bestDay, bestHour). -/
theorem c8_strict_improvement
    (acc : DailySummary) (i : ℕ) (kw : ℝ)
    (macc : MonthlySummary) (d : ℕ) (ds : DailySummary)
    (yacc : YearlySummary) (mo : ℕ) (ms : MonthlySummary) :
    (kw ≤ acc.maxKwInHour →
      (dailyStepOk acc i kw).maxKwInHour = acc.maxKwInHour ∧
        (dailyStepOk acc i kw).hourOfMax = acc.hourOfMax) ∧
    (ds.totalKw ≤ macc.bestDayKw →
      (monthlyStep macc d ds).bestDayKw = macc.bestDayKw ∧
        (monthlyStep macc d ds).bestDayDay = macc.bestDayDay) ∧
    (ds.maxKwInHour ≤ macc.bestHourKw →
      (monthlyStep macc d ds).bestHourKw = macc.bestHourKw ∧
        (monthlyStep macc d ds).bestHourDay = macc.bestHourDay ∧
        (monthlyStep macc d ds).bestHourHour = macc.bestHourHour) ∧
    (ms.totalKw ≤ yacc.bestMonthKw →
      (yearlyStep yacc mo ms).bestMonthKw = yacc.bestMonthKw ∧
        (yearlyStep yacc mo ms).bestMonthMonth = yacc.bestMonthMonth) ∧
    (ms.bestDayKw ≤ yacc.bestDayKw →
      (yearlyStep yacc mo ms).bestDayKw = yacc.bestDayKw ∧
        (yearlyStep yacc mo ms).bestDayMonth = yacc.bestDayMonth ∧
        (yearlyStep yacc mo ms).bestDayDay = yacc.bestDayDay) ∧
    (ms.bestHourKw ≤ yacc.bestHourKw →
      (yearlyStep yacc mo ms).bestHourKw = yacc.bestHourKw ∧
        (yearlyStep yacc mo ms).bestHourMonth = yacc.bestHourMonth ∧
        (yearlyStep yacc mo ms).bestHourDay = yacc.bestHourDay ∧
        (yearlyStep yacc mo ms).bestHourHour = yacc.bestHourHour) := by
  refine ⟨fun h => ?_, fun h => ?_, fun h => ?_, fun h => ?_, fun h => ?_, fun h => ?_⟩
  · exact ⟨by rw [dailyStepOk_maxKwInHour, if_neg (not_lt.mpr h)],
      by rw [dailyStepOk_hourOfMax, if_neg (not_lt.mpr h)]⟩
  · exact ⟨by rw [monthlyStep_bestDayKw, if_neg (not_lt.mpr h)],
      by rw [monthlyStep_bestDayDay, if_neg (not_lt.mpr h)]⟩
  · exact ⟨by rw [monthlyStep_bestHourKw, if_neg (not_lt.mpr h)],
      by rw [monthlyStep_bestHourDay, if_neg (not_lt.mpr h)],
      by rw [monthlyStep_bestHourHour, if_neg (not_lt.mpr h)]⟩
  · exact ⟨by rw [yearlyStep_bestMonthKw, if_neg (not_lt.mpr h)],
      by rw [yearlyStep_bestMonthMonth, if_neg (not_lt.mpr h)]⟩
  · exact ⟨by rw [yearlyStep_bestDayKw, if_neg (not_lt.mpr h)],
      by rw [yearlyStep_bestDayMonth, if_neg (not_lt.mpr h)],
      by rw [yearlyStep_bestDayDay, if_neg (not_lt.mpr h)]⟩
  · exact ⟨by rw [yearlyStep_bestHourKw, if_neg (not_lt.mpr h)],
      by rw [yearlyStep_bestHourMonth, if_neg (not_lt.mpr h)],
      by rw [yearlyStep_bestHourDay, if_neg (not_lt.mpr h)],
      by rw [yearlyStep_bestHourHour, if_neg (not_lt.mpr h)]⟩

/-- Witness for C8 on concrete exact ties at every level. -/
theorem c8_witness :
    ((dailyStepOk ⟨1, 4, 2, 3, [3], 0⟩ 7 2).maxKwInHour = 2 ∧
      (dailyStepOk ⟨1, 4, 2, 3, [3], 0⟩ 7 2).hourOfMax = 3) ∧
    ((monthlyStep ⟨1, 31, 0, 2, 9, 2, 10, 3, 0⟩ 5 ⟨1, 9, 3, 6, [6], 0⟩).bestDayKw = 9 ∧
      (monthlyStep ⟨1, 31, 0, 2, 9, 2, 10, 3, 0⟩ 5 ⟨1, 9, 3, 6, [6], 0⟩).bestDayDay = 2) ∧
    ((monthlyStep ⟨1, 31, 0, 2, 9, 2, 10, 3, 0⟩ 5 ⟨1, 9, 3, 6, [6], 0⟩).bestHourKw = 3 ∧
      (monthlyStep ⟨1, 31, 0, 2, 9, 2, 10, 3, 0⟩ 5 ⟨1, 9, 3, 6, [6], 0⟩).bestHourDay = 2 ∧
      (monthlyStep ⟨1, 31, 0, 2, 9, 2, 10, 3, 0⟩ 5 ⟨1, 9, 3, 6, [6], 0⟩).bestHourHour = 10) ∧
    ((yearlyStep ⟨0, 1, 9, 1, 2, 9, 1, 2, 10, 3, 0, 0⟩ 2 ⟨2, 28, 9, 2, 9, 2, 10, 3, 0⟩).bestMonthKw = 9 ∧
      (yearlyStep ⟨0, 1, 9, 1, 2, 9, 1, 2, 10, 3, 0, 0⟩ 2 ⟨2, 28, 9, 2, 9, 2, 10, 3, 0⟩).bestMonthMonth = 1) ∧
    ((yearlyStep ⟨0, 1, 9, 1, 2, 9, 1, 2, 10, 3, 0, 0⟩ 2 ⟨2, 28, 9, 2, 9, 2, 10, 3, 0⟩).bestDayKw = 9 ∧
      (yearlyStep ⟨0, 1, 9, 1, 2, 9, 1, 2, 10, 3, 0, 0⟩ 2 ⟨2, 28, 9, 2, 9, 2, 10, 3, 0⟩).bestDayMonth = 1 ∧
      (yearlyStep ⟨0, 1, 9, 1, 2, 9, 1, 2, 10, 3, 0, 0⟩ 2 ⟨2, 28, 9, 2, 9, 2, 10, 3, 0⟩).bestDayDay = 2) ∧
    ((yearlyStep ⟨0, 1, 9, 1, 2, 9, 1, 2, 10, 3, 0, 0⟩ 2 ⟨2, 28, 9, 2, 9, 2, 10, 3, 0⟩).bestHourKw = 3 ∧
      (yearlyStep ⟨0, 1, 9, 1, 2, 9, 1, 2, 10, 3, 0, 0⟩ 2 ⟨2, 28, 9, 2, 9, 2, 10, 3, 0⟩).bestHourMonth = 1 ∧
      (yearlyStep ⟨0, 1, 9, 1, 2, 9, 1, 2, 10, 3, 0, 0⟩ 2 ⟨2, 28, 9, 2, 9, 2, 10, 3, 0⟩).bestHourDay = 2 ∧
      (yearlyStep ⟨0, 1, 9, 1, 2, 9, 1, 2, 10, 3, 0, 0⟩ 2 ⟨2, 28, 9, 2, 9, 2, 10, 3, 0⟩).bestHourHour = 10) := by
  obtain ⟨h1, h2, h3, h4, h5, h6⟩ := c8_strict_improvement
    ⟨1, 4, 2, 3, [3], 0⟩ 7 2
    ⟨1, 31, 0, 2, 9, 2, 10, 3, 0⟩ 5 ⟨1, 9, 3, 6, [6], 0⟩
    ⟨0, 1, 9, 1, 2, 9, 1, 2, 10, 3, 0, 0⟩ 2 ⟨2, 28, 9, 2, 9, 2, 10, 3, 0⟩
  exact ⟨h1 (by norm_num), h2 (by norm_num), h3 (by norm_num),
    h4 (by norm_num), h5 (by norm_num), h6 (by norm_num)⟩

/-- C4 counterexample: with day = 366 (outside 1..365) and a negative
efficiency constant, GeneratedKw.daily_kw does not abort; it returns a
complete DailySummary whose day field is 366, and an out-of-range month
produces a KeyError from the dictionary lookup, not an InvalidInputError. -/
theorem c4_counterexample :
    (daily_kw 366 0 0 0 0 0 (-1)).day = 366 ∧
      (daily_kw 366 0 0 0 0 0 (-1)).fractionHoursActive =
        ((daily_kw 366 0 0 0 0 0 (-1)).hoursWithGeneration.length : ℝ) / 24 ∧
      monthly_kw 0 0 0 0 0 0 13 = Except.error PyErr.keyError :=
  ⟨daily_kw_day 366 0 0 0 0 0 (-1), daily_kw_fraction 366 0 0 0 0 0 (-1), rfl⟩

/-- C4 amended: the code performs no input validation and defines no
InvalidInputError.  daily_kw accepts any integer day (also outside 1..365) and
any efficiency constant (also negative) and still returns a complete
DailySummary; monthly_kw and calc_month abort for a month outside 1..12 only
through the KeyError raised by the days_in_month dictionary lookup. -/
theorem c4_no_validation (day : ℤ) (gmt : ℤ) (lo la ma mt ce : ℝ) (month : ℕ)
    (hm : days_in_month month = none) (md : MomentIn) :
    (daily_kw day gmt lo la ma mt ce).day = day ∧
      (daily_kw day gmt lo la ma mt ce).fractionHoursActive =
        ((daily_kw day gmt lo la ma mt ce).hoursWithGeneration.length : ℝ) / 24 ∧
      monthly_kw gmt lo la ma mt ce month = Except.error PyErr.keyError ∧
      calc_month md month = Except.error PyErr.keyError := by
  refine ⟨daily_kw_day day gmt lo la ma mt ce,
    daily_kw_fraction day gmt lo la ma mt ce, ?_, ?_⟩
  · unfold monthly_kw
    rw [hm]
  · unfold calc_month
    rw [hm]

/-- Witness for the amended C4 at day 400, efficiency -2, month 13. -/
theorem c4_witness :
    days_in_month 13 = none ∧
      (daily_kw 400 0 0 0 0 0 (-2)).day = 400 ∧
      (daily_kw 400 0 0 0 0 0 (-2)).fractionHoursActive =
        ((daily_kw 400 0 0 0 0 0 (-2)).hoursWithGeneration.length : ℝ) / 24 ∧
      monthly_kw 0 0 0 0 0 (-2) 13 = Except.error PyErr.keyError ∧
      calc_month (probe 0 0 0 1) 13 = Except.error PyErr.keyError := by
  have h := c4_no_validation 400 0 0 0 0 0 (-2) 13 rfl (probe 0 0 0 1)
  exact ⟨rfl, h.1, h.2.1, h.2.2.1, h.2.2.2⟩

/-- C5 counterexample: Calculation.calc_month in data.py mutates the
caller-supplied MomentData in place; starting from an object with day = 1,
after calc_month(md, 1) the object's day field is 31, not 1. -/
theorem c5_counterexample :
    ((calc_month ⟨1, 0, 0, 0, 0, 0, 0, 0⟩ 1).map fun p => p.2.day) =
        Except.ok 31 ∧
      (31 : ℤ) ≠ 1 := by
  constructor
  · rw [calc_month_eq (⟨1, 0, 0, 0, 0, 0, 0, 0⟩ : MomentIn)
      (show days_in_month 1 = some 31 from rfl)]
    rfl
  · decide

/-- C5 amended: the GeneratedKw operations take scalar parameters and mutate
nothing, but the data.py drivers mutate the shared MomentData object's day
field: after calc_month it equals the day-of-year of the month's last day
(monthBase month + daysInMonth[month]), and after calc_year it equals 365; all
the other fields of the object are unchanged. -/
theorem c5_calc_mutates_day (md : MomentIn) (month n : ℕ)
    (h : days_in_month month = some n) :
    ((calc_month md month).map fun p => p.2) =
        Except.ok ({ md with day := ((monthBase month + n : ℕ) : ℤ) } : MomentIn) ∧
      (calc_year md).2 = { md with day := ((365 : ℕ) : ℤ) } := by
  constructor
  · rw [calc_month_eq md h]
    rfl
  · rw [calc_year_eq]

/-- Witness for the amended C5 at month 1 (31 days). -/
theorem c5_witness :
    days_in_month 1 = some 31 ∧
      ((calc_month (probe 0 0 0 1) 1).map fun p => p.2) =
        Except.ok ({ probe 0 0 0 1 with
          day := ((monthBase 1 + 31 : ℕ) : ℤ) } : MomentIn) ∧
      (calc_year (probe 0 0 0 1)).2 =
        { probe 0 0 0 1 with day := ((365 : ℕ) : ℤ) } := by
  have h := c5_calc_mutates_day (probe 0 0 0 1) 1 31 rfl
  exact ⟨rfl, h.1, h.2⟩

/-- C10: when no hour of a day contributes strictly positive generation the
daily summary keeps its never-updated initial values maxKwInHour = 0 and
hourOfMax = 0 with an empty active-hours list and fraction 0; a month whose
days all total 0 reports its best day as day 0 with 0 kW, and a year whose
months all total 0 reports its best month as month 0 with 0 kW — the sentinel
0, which is not a valid calendar index. -/
theorem c10_sentinel_zeros (gmt : ℤ) (lo la ma mt ce : ℝ) :
    (∀ day : ℤ, (∀ i, i < 24 → effKw day gmt lo la ma mt ce i ≤ 0) →
      (daily_kw day gmt lo la ma mt ce).maxKwInHour = 0 ∧
        (daily_kw day gmt lo la ma mt ce).hourOfMax = 0 ∧
        (daily_kw day gmt lo la ma mt ce).hoursWithGeneration = [] ∧
        (daily_kw day gmt lo la ma mt ce).fractionHoursActive = 0) ∧
    (∀ month n, days_in_month month = some n →
      (∀ d ∈ List.range' 1 n,
        (daily_kw ((monthBase month + d : ℕ) : ℤ) gmt lo la ma mt ce).totalKw = 0) →
      ∃ ms, monthly_kw gmt lo la ma mt ce month = Except.ok ms ∧
        ms.bestDayDay = 0 ∧ ms.bestDayKw = 0) ∧
    ((∀ mo ms, monthly_kw gmt lo la ma mt ce mo = Except.ok ms → ms.totalKw = 0) →
      ∃ ys, yearly_kw gmt lo la ma mt ce = Except.ok ys ∧
        ys.bestMonthMonth = 0 ∧ ys.bestMonthKw = 0) := by
  refine ⟨?_, ?_, ?_⟩
  · intro day hz
    have hf := foldl_dailyStep_zero day gmt lo la ma mt ce (List.range 24)
      ⟨day, 0, 0, 0, [], 0⟩
      (fun i hi => hz i (List.mem_range.mp hi)) rfl rfl rfl
    refine ⟨hf.1, hf.2.1, hf.2.2, ?_⟩
    show ((((List.range 24).foldl (dailyStep day gmt lo la ma mt ce)
      ⟨day, 0, 0, 0, [], 0⟩).hoursWithGeneration.length : ℕ) : ℝ) / 24 = 0
    rw [hf.2.2]
    norm_num
  · intro month n h hz
    have hb := monthlySummaryOf_bestDay_zero gmt lo la ma mt ce h hz
    exact ⟨monthlySummaryOf gmt lo la ma mt ce month,
      monthly_kw_eq gmt lo la ma mt ce h, hb.2, hb.1⟩
  · intro hz
    have hzm : ∀ mo ∈ List.range' 1 12,
        (monthlySummaryOf gmt lo la ma mt ce mo).totalKw = 0 := by
      intro mo hmo
      exact hz mo _ (monthly_kw_eq gmt lo la ma mt ce (days_in_month_valid mo hmo))
    have hb := yearlyFold_bestMonth_zero gmt lo la ma mt ce hzm
    exact ⟨_, yearly_kw_eq gmt lo la ma mt ce, hb.2, hb.1⟩

/-- Witness for C10 with efficiency constant 0, where every hour of every day
generates exactly 0. -/
theorem c10_witness :
    ((daily_kw 1 0 0 0 0 0 0).maxKwInHour = 0 ∧
      (daily_kw 1 0 0 0 0 0 0).hourOfMax = 0 ∧
      (daily_kw 1 0 0 0 0 0 0).hoursWithGeneration = [] ∧
      (daily_kw 1 0 0 0 0 0 0).fractionHoursActive = 0) ∧
    (∃ ms, monthly_kw 0 0 0 0 0 0 1 = Except.ok ms ∧
      ms.bestDayDay = 0 ∧ ms.bestDayKw = 0) ∧
    (∃ ys, yearly_kw 0 0 0 0 0 0 = Except.ok ys ∧
      ys.bestMonthMonth = 0 ∧ ys.bestMonthKw = 0) := by
  obtain ⟨ha, hb, hc⟩ := c10_sentinel_zeros 0 0 0 0 0 0
  refine ⟨ha 1 (fun i _ => le_of_eq (effKw_eff_zero 1 0 0 0 0 0 i)), ?_, ?_⟩
  · exact hb 1 31 rfl (fun d _ => daily_total_eff_zero _ 0 0 0 0 0)
  · refine hc ?_
    intro mo ms hms
    obtain ⟨rfl, n, hn⟩ := monthly_kw_ok_inv hms
    rw [monthlySummaryOf_totalKw 0 0 0 0 0 0 hn]
    rw [List.map_congr_left fun d _ => daily_total_eff_zero _ 0 0 0 0 0]
    simp

end Gunes
